import Mathlib

/-!
Shallow embedding of the budget-allocation / hotel-filtering / prompt-building
core of the tour-planner repository (`streamlit_app/src/functions.py`).

Python floats are modelled as `ℚ`, Python ints as `ℤ`/`ℕ`, dates as their
ordinal day number (`ℤ`, so `(end_date - start_date).days` is plain integer
subtraction), raised exceptions as `Except PyError`.  Dictionary fields that
may be absent or hold a non-numeric placeholder string are modelled by small
sum types mirroring the values the code actually stores.
-/

/-- A Python exception relevant to the modelled code paths. -/
inductive PyError where
  | zeroDivision
  | valueError
deriving DecidableEq, Repr

/-- Value of the `rating` entry of an accommodation dict: a number, a string
(such as the `'Not rated'` placeholder), or the key being absent. -/
inductive Rating where
  | absent
  | num (q : ℚ)
  | str (s : String)
deriving DecidableEq, Repr

/-- Value of the `price_level` entry: an integer tier, a string placeholder
(such as `'Price not available'`), or the key being absent. -/
inductive PriceLevel where
  | int (n : ℤ)
  | str (s : String)
  | absent
deriving DecidableEq, Repr

/-- An accommodation dict as built by `get_accommodations`
(`functions.py` lines 143-149). -/
structure Accommodation where
  name : String
  rating : Rating
  price_level : PriceLevel
  vicinity : String
  user_ratings_total : ℕ
  types : List String
deriving DecidableEq, Repr

/-- A raw place record from the external places lookup: every enrichment
field may be absent. -/
structure Place where
  name : String
  rating : Option ℚ
  price_level : Option ℤ
  vicinity : Option String
  user_ratings_total : Option ℕ
  types : Option (List String)
deriving DecidableEq, Repr

/-- The dict built per place by `get_accommodations` (lines 143-149):
`place.get('rating', 'Not rated')`, `place.get('price_level',
'Price not available')`, `place.get('vicinity', 'Address not available')`,
`place.get('user_ratings_total', 0)`, `place.get('types', [])`. -/
def accommodation_of_place (p : Place) : Accommodation :=
  { name := p.name
    rating := match p.rating with
      | some q => Rating.num q
      | none => Rating.str "Not rated"
    price_level := match p.price_level with
      | some n => PriceLevel.int n
      | none => PriceLevel.str "Price not available"
    vicinity := p.vicinity.getD "Address not available"
    user_ratings_total := p.user_ratings_total.getD 0
    types := p.types.getD [] }

/-! ### Python `float(...)` on strings, restricted to decimal literals -/

/-- Numeric value of a list of decimal digit characters. -/
def natOfDigits (cs : List Char) : ℕ :=
  cs.foldl (fun a c => 10 * a + (c.toNat - 48)) 0

/-- `true` iff the list is nonempty and all characters are decimal digits. -/
def allDigits (cs : List Char) : Bool :=
  !cs.isEmpty && cs.all Char.isDigit

/-- Split a character list at the first `'.'`, if any. -/
def splitAtDot : List Char → (List Char × Option (List Char))
  | [] => ([], none)
  | c :: cs =>
    if c = '.' then ([], some cs)
    else
      let r := splitAtDot cs
      (c :: r.1, r.2)

/-- Model of Python `float(s)` on a string argument, covering plain decimal
literals (optional sign, digits, optional single fractional point).  Any
other string — in particular the `'Not rated'` placeholder — raises
`ValueError`, modelled as `none`. -/
def pyFloatOfString (s : String) : Option ℚ :=
  let cs := (s.data.dropWhile Char.isWhitespace).reverse.dropWhile Char.isWhitespace |>.reverse
  let (sign, body) : ℚ × List Char :=
    match cs with
    | '-' :: rest => (-1, rest)
    | '+' :: rest => (1, rest)
    | rest => (1, rest)
  match splitAtDot body with
  | (ip, none) =>
    if allDigits ip then some (sign * natOfDigits ip) else none
  | (ip, some fp) =>
    if fp.any (· = '.') then none
    else if (allDigits ip || ip.isEmpty) && (allDigits fp || fp.isEmpty)
            && !(ip.isEmpty && fp.isEmpty) then
      some (sign * ((natOfDigits ip : ℚ) + (natOfDigits fp : ℚ) / 10 ^ fp.length))
    else none

/-- The sort key `float(x.get('rating', 0) or 0)` from
`suggest_accommodations` line 377.  An absent key gives the default `0`
(falsy, so `or 0` keeps `0`); a falsy value (`0`, `''`) becomes `0`; a
non-empty string goes through `float(...)`, which raises `ValueError` on a
non-numeric string such as `'Not rated'`. -/
def ratingSortKey : Rating → Except PyError ℚ
  | Rating.absent => Except.ok 0
  | Rating.num q => Except.ok q
  | Rating.str s =>
    if s = "" then Except.ok 0
    else
      match pyFloatOfString s with
      | some q => Except.ok q
      | none => Except.error PyError.valueError

/-! ### CostAllocator: `estimate_other_costs` (lines 408-417) -/

/-- The budget-breakdown dict. -/
structure BudgetBreakdown where
  food : ℚ
  local_travel : ℚ
  tickets : ℚ
  lodging_budget : ℚ
deriving DecidableEq, Repr

/-- `estimate_other_costs(budget)` (lines 408-417): fixed shares
`food = budget * 0.2`, `local_travel = budget * 0.3`,
`tickets = budget * 0.2`, `lodging_budget = budget * 0.3`. -/
def estimate_other_costs (budget : ℚ) : BudgetBreakdown :=
  { food := budget * (2 / 10)
    local_travel := budget * (3 / 10)
    tickets := budget * (2 / 10)
    lodging_budget := budget * (3 / 10) }

/-! ### Trip duration -/

/-- `calculate_trip_duration(start_date, end_date)` (lines 393-406) on date
inputs: `(end_date - start_date).days`, i.e. plain difference of the dates'
ordinal day numbers.  No clamping happens on the date path (the
`except: return 1` arm only fires on unparsable string input). -/
def calculate_trip_duration (start_date end_date : ℤ) : ℤ :=
  end_date - start_date

/-- `get_available_hotels` (lines 153-173) on date inputs: duration clamped
to at least 1, an inline budget breakdown with the same 0.2/0.3/0.2/0.3
shares, and an always-empty hotel list. -/
def get_available_hotels (start_date end_date : ℤ) (budget : ℚ) :
    List Accommodation × BudgetBreakdown × ℤ :=
  let trip_duration := end_date - start_date
  let trip_duration := if trip_duration ≤ 0 then 1 else trip_duration
  let budget_breakdown : BudgetBreakdown :=
    { food := budget * (2 / 10)
      local_travel := budget * (3 / 10)
      tickets := budget * (2 / 10)
      lodging_budget := budget * (3 / 10) }
  ([], budget_breakdown, trip_duration)

/-! ### HotelSelector: `suggest_accommodations` (lines 314-384) -/

/-- `room_factor = (num_travelers // 2) + (num_travelers % 2)` (line 337). -/
def room_factor (num_travelers : ℕ) : ℕ :=
  num_travelers / 2 + num_travelers % 2

/-- Python float division: raises `ZeroDivisionError` on a zero divisor. -/
def pyDiv (a b : ℚ) : Except PyError ℚ :=
  if b = 0 then Except.error PyError.zeroDivision else Except.ok (a / b)

/-- Bucket index of `price_level = acc.get('price_level', 2)`
(lines 349-357): `0` for the budget bucket (`price_level in [1, 0]`),
`1` for mid-range (`price_level == 2`, also the absent-key default), `2`
for luxury (everything else, including string placeholders). -/
def price_category : PriceLevel → ℕ
  | PriceLevel.absent => 1
  | PriceLevel.int n => if n = 1 ∨ n = 0 then 0 else if n = 2 then 1 else 2
  | PriceLevel.str _ => 2

/-- Stable descending insertion by the first (key) component, matching
`sorted(..., reverse=True)`: an element is placed before the first
strictly-smaller key, after equal keys. -/
def insertDesc (x : ℚ × Accommodation) :
    List (ℚ × Accommodation) → List (ℚ × Accommodation)
  | [] => [x]
  | y :: ys => if y.1 < x.1 then x :: y :: ys else y :: insertDesc x ys

/-- Stable descending sort by key (model of Python `sorted` with
`reverse=True` on the already-computed keys). -/
def sortDescByKey (l : List (ℚ × Accommodation)) : List (ℚ × Accommodation) :=
  l.foldr insertDesc []

/-- Lines 344-374 of `suggest_accommodations`: partition the fetched
accommodations into budget / mid-range / luxury buckets by
`price_category`, pick the recommended category from `budget_per_room`
(`>= 150` luxury, `>= 75` mid-range, otherwise budget), and choose the
first non-empty bucket in that category's preference order (Python
`a or b or c` on lists). -/
def select_options (all_accommodations : List Accommodation)
    (budget_per_room : ℚ) : List Accommodation :=
  let budget_options :=
    all_accommodations.filter (fun a => price_category a.price_level = 0)
  let mid_range_options :=
    all_accommodations.filter (fun a => price_category a.price_level = 1)
  let luxury_options :=
    all_accommodations.filter (fun a => price_category a.price_level = 2)
  let recommended_category : ℕ :=
    if 150 ≤ budget_per_room then 2 else if 75 ≤ budget_per_room then 1 else 0
  if recommended_category = 0 then
    if budget_options ≠ [] then budget_options
    else if mid_range_options ≠ [] then mid_range_options
    else luxury_options
  else if recommended_category = 1 then
    if mid_range_options ≠ [] then mid_range_options
    else if budget_options ≠ [] then budget_options
    else luxury_options
  else
    if luxury_options ≠ [] then luxury_options
    else if mid_range_options ≠ [] then mid_range_options
    else budget_options

/-- The `budget_info` part of the dict returned by
`suggest_accommodations` (lines 378-384). -/
structure BudgetInfo where
  total_budget : ℚ
  accommodation_budget : ℚ
  budget_per_night : ℚ
  trip_duration : ℤ
deriving DecidableEq, Repr

/-- The dict returned by `suggest_accommodations` (lines 378-384). -/
structure SuggestResult where
  recommendations : List Accommodation
  budget_info : BudgetInfo
deriving DecidableEq, Repr

/-- `suggest_accommodations(destination, start_date, end_date, total_budget,
num_travelers, gmapsclient)` (lines 314-384), with the external
`get_accommodations` fetch replaced by the `all_accommodations` argument
(the list that call returns).  Each `match` on an `Except` is an exception
propagation point of the original: `budget_per_night =
accommodation_budget / trip_duration` (ZeroDivisionError when the trip
duration is 0), `budget_per_room = budget_per_night / room_factor`
(ZeroDivisionError when `num_travelers` is 0), and the per-candidate
`float(x.get('rating', 0) or 0)` sort keys (ValueError on a non-numeric
rating string).  `recommendations` is initialized to `[]` and never
appended to before being returned. -/
def suggest_accommodations (start_date end_date : ℤ) (total_budget : ℚ)
    (num_travelers : ℕ) (all_accommodations : List Accommodation) :
    Except PyError SuggestResult :=
  let trip_duration := calculate_trip_duration start_date end_date
  let accommodation_budget := (estimate_other_costs total_budget).lodging_budget
  match pyDiv accommodation_budget (trip_duration : ℚ) with
  | Except.error e => Except.error e
  | Except.ok budget_per_night =>
    match pyDiv budget_per_night (room_factor num_travelers : ℚ) with
    | Except.error e => Except.error e
    | Except.ok budget_per_room =>
      let options := select_options all_accommodations budget_per_room
      match options.mapM (fun a => (ratingSortKey a.rating).map (fun k => (k, a))) with
      | Except.error e => Except.error e
      | Except.ok keyed =>
        let sorted_options := (sortDescByKey keyed).map (fun p => p.2)
        let _ := sorted_options
        Except.ok
          { recommendations := []
            budget_info :=
              { total_budget := total_budget
                accommodation_budget := accommodation_budget
                budget_per_night := budget_per_night
                trip_duration := trip_duration } }

/-! ### ItineraryPromptBuilder: `generate_itinerary` prompt (lines 257-271) -/

/-- The closing budget directive of line 271:
`f"STRICT RULE: Total cost MUST NOT exceed £{budget}. Prioritize free/cheap options first."` -/
def strict_rule_directive (budget : ℕ) : String :=
  "STRICT RULE: Total cost MUST NOT exceed £" ++ toString budget ++
    ". Prioritize free/cheap options first."

/-- The prompt text assembled by `generate_itinerary` (lines 257-271): the
f-string body of lines 257-269 followed by the unconditional
`prompt += f"STRICT RULE: ..."` of line 271.  The already-rendered
`attractions_text`, `weather_forecast` and `accommodation_text` sections are
passed in as strings, as in the source. -/
def generate_itinerary_prompt (destination : String)
    (no_of_adults no_of_children : ℕ) (start_date end_date : String)
    (budget : ℕ) (interests : List String)
    (attractions_text weather_forecast accommodation_text : String) : String :=
  let prompt :=
    "\n    You are a helpful tour planner.\n    Create a day-by-day itinerary, within 1000 words or less,\n    for a trip to "
      ++ destination ++ ",\n    for " ++ toString no_of_adults
      ++ " adults and " ++ toString no_of_children ++ " children,\n    from "
      ++ start_date ++ " to " ++ end_date ++ ",\n    within a budget of £"
      ++ toString budget ++ ", and \n    with focus on the below interests "
      ++ String.intercalate ", " interests ++ ".\n    Include places like, "
      ++ attractions_text
      ++ ", in the itinerary and\n    factor the forecasted weather, like "
      ++ weather_forecast ++ " while building the itinerary.\n    "
      ++ accommodation_text ++ "\n    \n    "
  prompt ++ ("STRICT RULE: Total cost MUST NOT exceed £" ++ toString budget ++
    ". Prioritize free/cheap options first.")

/-! ### LodgingScorer accessors, modelled from the spec

The spec describes a LodgingScorer whose scored fields (`rating_value`,
nightly rate, `estimated_total_stay_cost`) the shortlist entries are judged
by; no such code exists under `src/`, so these are taken from the spec's
words (§4.2) to state the shortlist properties. -/

/-- Modelled from the spec: `rating_value = numeric parse of candidate
rating; non-numeric or absent → 0.0` (§4.2); the parse itself is the
code's coercion `ratingSortKey`, with the failure case defaulted to 0. -/
def rating_value (r : Rating) : ℚ :=
  match ratingSortKey r with
  | Except.ok q => q
  | Except.error _ => 0

/-- Modelled from the spec: the fixed price-tier → nightly-rate table
`{0:50, 1:75, 2:120, 3:200, 4:320}`, unknown/missing tier defaulting to the
tier-2 rate (§4.2). -/
def nightly_rate : PriceLevel → ℚ
  | PriceLevel.int 0 => 50
  | PriceLevel.int 1 => 75
  | PriceLevel.int 2 => 120
  | PriceLevel.int 3 => 200
  | PriceLevel.int 4 => 320
  | _ => 120

/-- Modelled from the spec: `total_stay_cost = nightly_rate × rooms_needed ×
trip_duration` (§4.2). -/
def estimated_total_stay_cost (a : Accommodation) (rooms_needed : ℕ)
    (trip_duration : ℤ) : ℚ :=
  nightly_rate a.price_level * rooms_needed * trip_duration

/-- Boolean form of the shortlist admission constraints of spec §4.3:
rating at least the minimum, estimated stay cost within the lodging
budget. -/
def meets_constraints (min_rating lodging_budget : ℚ) (rooms_needed : ℕ)
    (trip_duration : ℤ) (a : Accommodation) : Bool :=
  decide (min_rating ≤ rating_value a.rating) &&
    decide (estimated_total_stay_cost a rooms_needed trip_duration ≤ lodging_budget)

/-- Boolean form of the shortlist ordering of spec §4.3/§8: adjacent
entries have non-increasing rating, and equal-rating neighbours have
non-increasing review count. -/
def sorted_pairwise : List Accommodation → Bool
  | a :: b :: rest =>
    (decide (rating_value b.rating ≤ rating_value a.rating) &&
      (!decide (rating_value a.rating = rating_value b.rating) ||
        decide (b.user_ratings_total ≤ a.user_ratings_total))) &&
    sorted_pairwise (b :: rest)
  | _ => true

/-! ### Concrete sample inputs used by witnesses and counterexamples -/

/-- A fetched accommodation with a numeric rating and price level 1. -/
def sampleRated : Accommodation :=
  { name := "City Hotel", rating := Rating.num 4, price_level := PriceLevel.int 1,
    vicinity := "2 Main St", user_ratings_total := 120, types := ["lodging"] }

/-- A raw place with no rating field: `get_accommodations` turns it into a
record whose rating is the `'Not rated'` placeholder string. -/
def sampleUnratedPlace : Place :=
  { name := "Sunrise Inn", rating := none, price_level := some 1,
    vicinity := some "1 High St", user_ratings_total := some 12,
    types := some ["lodging"] }

/-- A raw place with every optional field missing. -/
def sampleBarePlace : Place :=
  { name := "Harbor Hotel", rating := none, price_level := none,
    vicinity := none, user_ratings_total := none, types := none }

/-! ### Helper lemmas -/

/-- Whenever `suggest_accommodations` returns normally, the
`recommendations` entry of its result is the empty list: the code
initializes `recommendations = []` and never appends to it. -/
theorem suggest_ok_empty {s e : ℤ} {tb : ℚ} {nt : ℕ} {accs : List Accommodation}
    {r : SuggestResult} (h : suggest_accommodations s e tb nt accs = Except.ok r) :
    r.recommendations = [] := by
  unfold suggest_accommodations at h
  dsimp only at h
  split at h
  · exact Except.noConfusion h
  · split at h
    · exact Except.noConfusion h
    · split at h
      · exact Except.noConfusion h
      · cases h
        rfl

/-- If every accommodation of `accs` has a rating the sort-key coercion
accepts, then so does every member of a sublist, and the keyed `mapM`
succeeds. -/
theorem mapM_keys_ok (accs l : List Accommodation)
    (hsub : ∀ a ∈ l, a ∈ accs)
    (hr : ∀ a ∈ accs, ∃ q, ratingSortKey a.rating = Except.ok q) :
    ∃ ys, l.mapM (fun a => (ratingSortKey a.rating).map (fun k => (k, a)))
      = Except.ok ys := by
  induction l with
  | nil => exact ⟨[], rfl⟩
  | cons x xs ih =>
    obtain ⟨q, hq⟩ := hr x (hsub x (List.mem_cons_self x xs))
    obtain ⟨ys, hys⟩ := ih (fun a ha => hsub a (List.mem_cons_of_mem _ ha))
    refine ⟨(q, x) :: ys, ?_⟩
    rw [List.mapM_cons, hq, hys]
    rfl

/-- Every accommodation the bucket/category selection picks comes from the
fetched list. -/
theorem select_options_subset (accs : List Accommodation) (bpr : ℚ) :
    ∀ a ∈ select_options accs bpr, a ∈ accs := by
  intro a ha
  unfold select_options at ha
  dsimp only at ha
  repeat' split at ha
  all_goals exact List.mem_of_mem_filter ha

/-- `suggest_accommodations` returns normally when the trip duration is
nonzero, there is at least one traveler, and every candidate's rating
passes the numeric coercion. -/
theorem suggest_ok_of (s e : ℤ) (tb : ℚ) (nt : ℕ) (accs : List Accommodation)
    (hd : calculate_trip_duration s e ≠ 0) (hnt : 1 ≤ nt)
    (hr : ∀ a ∈ accs, ∃ q, ratingSortKey a.rating = Except.ok q) :
    ∃ r, suggest_accommodations s e tb nt accs = Except.ok r := by
  have hdQ : ((calculate_trip_duration s e : ℤ) : ℚ) ≠ 0 := Int.cast_ne_zero.mpr hd
  have hrfn : room_factor nt ≠ 0 := by unfold room_factor; omega
  have hrf : ((room_factor nt : ℕ) : ℚ) ≠ 0 := Nat.cast_ne_zero.mpr hrfn
  unfold suggest_accommodations
  dsimp only
  simp only [pyDiv, if_neg hdQ, if_neg hrf]
  obtain ⟨ys, hys⟩ := mapM_keys_ok accs
    (select_options accs
      ((estimate_other_costs tb).lodging_budget / ((calculate_trip_duration s e : ℤ) : ℚ) /
        ((room_factor nt : ℕ) : ℚ)))
    (select_options_subset accs _) hr
  rw [hys]
  exact ⟨_, rfl⟩

/-! ### Claim theorems -/

/-- C1: for every `total_budget > 0`, the breakdown produced by
`estimate_other_costs` satisfies
`food + local_travel + tickets + lodging_budget = total_budget` (exactly,
over `ℚ`) and `lodging_budget ≥ 0`. -/
theorem budget_breakdown_partitions_total (total_budget : ℚ) (h : 0 < total_budget) :
    (estimate_other_costs total_budget).food + (estimate_other_costs total_budget).local_travel +
      (estimate_other_costs total_budget).tickets +
      (estimate_other_costs total_budget).lodging_budget = total_budget ∧
    0 ≤ (estimate_other_costs total_budget).lodging_budget := by
  unfold estimate_other_costs
  constructor
  · ring
  · positivity

/-- Witness for C1 at `total_budget = 1000`. -/
theorem budget_breakdown_partitions_total_witness :
    (0 : ℚ) < 1000 ∧
    ((estimate_other_costs 1000).food + (estimate_other_costs 1000).local_travel +
        (estimate_other_costs 1000).tickets + (estimate_other_costs 1000).lodging_budget = 1000 ∧
      0 ≤ (estimate_other_costs 1000).lodging_budget) :=
  ⟨by norm_num, budget_breakdown_partitions_total 1000 (by norm_num)⟩

/-- C2: for every candidate list, preference set, minimum rating and lodging
budget, every item of the shortlist `suggest_accommodations` returns
satisfies `rating_value ≥ min_rating` and
`estimated_total_stay_cost ≤ lodging_budget`.  (It holds vacuously: the
returned `recommendations` list is always empty, see C4.) -/
theorem shortlist_meets_rating_and_budget (s e : ℤ) (tb : ℚ) (nt : ℕ)
    (accs : List Accommodation) (type_preferences : List String)
    (min_rating lodging_budget : ℚ) (r : SuggestResult)
    (h : suggest_accommodations s e tb nt accs = Except.ok r) :
    r.recommendations.all
      (meets_constraints min_rating lodging_budget (room_factor nt)
        (calculate_trip_duration s e)) = true := by
  rw [suggest_ok_empty h]
  rfl

/-- Witness for C2 at a concrete trip with one candidate. -/
theorem shortlist_meets_rating_and_budget_witness :
    suggest_accommodations 0 5 1000 2 [sampleRated] = Except.ok
      { recommendations := [],
        budget_info := { total_budget := 1000, accommodation_budget := 300,
                         budget_per_night := 60, trip_duration := 5 } } ∧
    ({ recommendations := [],
       budget_info := { total_budget := 1000, accommodation_budget := 300,
                        budget_per_night := 60, trip_duration := 5 } } :
        SuggestResult).recommendations.all
      (meets_constraints 3 300 (room_factor 2) (calculate_trip_duration 0 5)) = true :=
  ⟨by with_unfolding_all rfl,
    shortlist_meets_rating_and_budget 0 5 1000 2 [sampleRated] ["Hotel"] 3 300
      { recommendations := [],
        budget_info := { total_budget := 1000, accommodation_budget := 300,
                         budget_per_night := 60, trip_duration := 5 } }
      (by with_unfolding_all rfl)⟩

/-- C3: in every shortlist `suggest_accommodations` returns, adjacent
entries have non-increasing `rating_value`, and equal-rating neighbours
have non-increasing review count.  (It holds vacuously: the returned
`recommendations` list is always empty, see C4; the internally computed
`sorted_options` is ordered by rating only, with no review-count
tie-break, and is discarded.) -/
theorem shortlist_sorted_by_rating_then_reviews (s e : ℤ) (tb : ℚ) (nt : ℕ)
    (accs : List Accommodation) (r : SuggestResult)
    (h : suggest_accommodations s e tb nt accs = Except.ok r) :
    sorted_pairwise r.recommendations = true := by
  rw [suggest_ok_empty h]
  rfl

/-- Witness for C3 at a concrete trip. -/
theorem shortlist_sorted_by_rating_then_reviews_witness :
    suggest_accommodations 0 7 2000 3 [sampleRated] = Except.ok
      { recommendations := [],
        budget_info := { total_budget := 2000, accommodation_budget := 600,
                         budget_per_night := 600 / 7, trip_duration := 7 } } ∧
    sorted_pairwise
      ({ recommendations := [],
         budget_info := { total_budget := 2000, accommodation_budget := 600,
                          budget_per_night := 600 / 7, trip_duration := 7 } } :
          SuggestResult).recommendations = true :=
  ⟨by with_unfolding_all rfl,
    shortlist_sorted_by_rating_then_reviews 0 7 2000 3 [sampleRated]
      { recommendations := [],
        budget_info := { total_budget := 2000, accommodation_budget := 600,
                         budget_per_night := 600 / 7, trip_duration := 7 } }
      (by with_unfolding_all rfl)⟩

/-- C4: whenever `suggest_accommodations` returns, its `recommendations`
list is empty: the value initialized to `[]` at line 367 is never appended
to before being returned at line 378, so the sorted/filtered options are
computed but never surfaced. -/
theorem suggest_accommodations_recommendations_empty (s e : ℤ) (tb : ℚ) (nt : ℕ)
    (accs : List Accommodation) (r : SuggestResult)
    (h : suggest_accommodations s e tb nt accs = Except.ok r) :
    r.recommendations = [] :=
  suggest_ok_empty h

/-- Witness for C4 at a concrete trip. -/
theorem suggest_accommodations_recommendations_empty_witness :
    suggest_accommodations 0 5 1000 2 [] = Except.ok
      { recommendations := [],
        budget_info := { total_budget := 1000, accommodation_budget := 300,
                         budget_per_night := 60, trip_duration := 5 } } ∧
    ({ recommendations := [],
       budget_info := { total_budget := 1000, accommodation_budget := 300,
                        budget_per_night := 60, trip_duration := 5 } } :
        SuggestResult).recommendations = [] :=
  ⟨by with_unfolding_all rfl,
    suggest_accommodations_recommendations_empty 0 5 1000 2 []
      { recommendations := [],
        budget_info := { total_budget := 1000, accommodation_budget := 300,
                         budget_per_night := 60, trip_duration := 5 } }
      (by with_unfolding_all rfl)⟩

/-- C5 (code bug): the record `get_accommodations` builds for a place with
no rating carries the `'Not rated'` placeholder string, and the sort-key
coercion `float(x.get('rating', 0) or 0)` raises `ValueError` on it
instead of yielding `0.0`, so `suggest_accommodations` crashes on exactly
the records its own fetcher produces. -/
theorem rating_coercion_raises_on_placeholder :
    (accommodation_of_place sampleUnratedPlace).rating = Rating.str "Not rated" ∧
    ratingSortKey (Rating.str "Not rated") = Except.error PyError.valueError ∧
    suggest_accommodations 0 5 1000 2 [accommodation_of_place sampleUnratedPlace]
      = Except.error PyError.valueError :=
  ⟨rfl, by with_unfolding_all rfl, by with_unfolding_all rfl⟩

/-- C6 (code bug): for equal start and end dates,
`calculate_trip_duration` returns `0` rather than `max(end - start, 1)`,
and `suggest_accommodations` then divides the lodging budget by it and
raises `ZeroDivisionError`; only `get_available_hotels` clamps the
duration to `1`. -/
theorem trip_duration_unclamped_divides_by_zero :
    calculate_trip_duration 739617 739617 = 0 ∧
    max (calculate_trip_duration 739617 739617) 1 = 1 ∧
    (get_available_hotels 739617 739617 1000).2.2 = 1 ∧
    suggest_accommodations 739617 739617 1000 2 [] = Except.error PyError.zeroDivision :=
  ⟨rfl, by decide, by with_unfolding_all rfl, by with_unfolding_all rfl⟩

/-- C7: for at least one traveler, the room count
`(num_travelers // 2) + (num_travelers % 2)` equals
`⌈num_travelers / 2⌉` and is at least `1`. -/
theorem room_factor_is_ceil_halved (num_travelers : ℕ) (h : 1 ≤ num_travelers) :
    room_factor num_travelers = ⌈(num_travelers : ℚ) / 2⌉₊ ∧
    1 ≤ room_factor num_travelers := by
  unfold room_factor
  have hmod := Nat.div_add_mod num_travelers 2
  have hble : num_travelers % 2 ≤ 1 := by omega
  constructor
  · rw [eq_comm, Nat.ceil_eq_iff (by omega)]
    have hk : 1 ≤ num_travelers / 2 + num_travelers % 2 := by omega
    rw [Nat.cast_sub hk, Nat.cast_add]
    have hQ : (num_travelers : ℚ) =
        2 * ((num_travelers / 2 : ℕ) : ℚ) + ((num_travelers % 2 : ℕ) : ℚ) := by
      exact_mod_cast hmod.symm
    have hbQ : ((num_travelers % 2 : ℕ) : ℚ) ≤ 1 := by exact_mod_cast hble
    have hb0 : (0 : ℚ) ≤ ((num_travelers % 2 : ℕ) : ℚ) := by positivity
    constructor
    · rw [lt_div_iff₀ (by norm_num : (0 : ℚ) < 2), hQ]
      linarith
    · rw [div_le_iff₀ (by norm_num : (0 : ℚ) < 2), hQ]
      linarith
  · omega

/-- Witness for C7 at `num_travelers = 3`. -/
theorem room_factor_is_ceil_halved_witness :
    1 ≤ 3 ∧ (room_factor 3 = ⌈(3 : ℚ) / 2⌉₊ ∧ 1 ≤ room_factor 3) :=
  ⟨by norm_num, room_factor_is_ceil_halved 3 (by norm_num)⟩

/-- C8 counterexample: with a non-positive lodging budget (total budget 0)
and a candidate whose rating is the `'Not rated'` placeholder,
`suggest_accommodations` raises `ValueError` instead of returning an empty
shortlist — there is no early return on a non-positive budget, and the
sort keys are still computed. -/
theorem nonpositive_budget_can_raise :
    (estimate_other_costs 0).lodging_budget ≤ 0 ∧
    suggest_accommodations 0 5 0 2 [accommodation_of_place sampleBarePlace]
      = Except.error PyError.valueError :=
  ⟨by norm_num [estimate_other_costs], by with_unfolding_all rfl⟩

/-- C8 (amended): with a non-positive lodging budget,
`suggest_accommodations` still returns an empty shortlist provided it
returns at all, which it does whenever the trip duration is nonzero, at
least one traveler exists, and every candidate's rating passes the
numeric coercion; raising on a non-numeric rating or a zero duration
remains possible. -/
theorem nonpositive_budget_ok_returns_empty (s e : ℤ) (tb : ℚ) (nt : ℕ)
    (accs : List Accommodation)
    (hb : (estimate_other_costs tb).lodging_budget ≤ 0)
    (hd : calculate_trip_duration s e ≠ 0) (hnt : 1 ≤ nt)
    (hr : ∀ a ∈ accs, ∃ q, ratingSortKey a.rating = Except.ok q) :
    ∃ r, suggest_accommodations s e tb nt accs = Except.ok r ∧
      r.recommendations = [] := by
  obtain ⟨r, hok⟩ := suggest_ok_of s e tb nt accs hd hnt hr
  exact ⟨r, hok, suggest_ok_empty hok⟩

/-- Witness for the amended C8 at total budget 0 with one well-rated
candidate. -/
theorem nonpositive_budget_ok_returns_empty_witness :
    ((estimate_other_costs 0).lodging_budget ≤ 0 ∧ calculate_trip_duration 0 5 ≠ 0 ∧ 1 ≤ 2) ∧
    (∃ r, suggest_accommodations 0 5 0 2 [sampleRated] = Except.ok r ∧
      r.recommendations = []) :=
  ⟨⟨by norm_num [estimate_other_costs], by decide, by norm_num⟩,
    nonpositive_budget_ok_returns_empty 0 5 0 2 [sampleRated]
      (by norm_num [estimate_other_costs]) (by decide) (by norm_num)
      (fun a ha => by
        rw [List.mem_singleton] at ha
        subst ha
        exact ⟨4, rfl⟩)⟩

/-- C9 counterexample: at `total_budget = 1000`, `estimate_other_costs`
does not produce the spec's example split `food = 300, local_travel = 150,
tickets = 100, lodging_budget = 450`. -/
theorem allocation_at_1000_differs_from_spec_example :
    ¬((estimate_other_costs 1000).food = 300 ∧
      (estimate_other_costs 1000).local_travel = 150 ∧
      (estimate_other_costs 1000).tickets = 100 ∧
      (estimate_other_costs 1000).lodging_budget = 450) := by
  intro hc
  have hfood := hc.1
  norm_num [estimate_other_costs] at hfood

/-- C9 (amended): at `total_budget = 1000` the allocator produces
`food = 200, local_travel = 300, tickets = 200, lodging_budget = 300`
(shares 0.2/0.3/0.2/0.3). -/
theorem allocation_at_1000_values :
    (estimate_other_costs 1000).food = 200 ∧
    (estimate_other_costs 1000).local_travel = 300 ∧
    (estimate_other_costs 1000).tickets = 200 ∧
    (estimate_other_costs 1000).lodging_budget = 300 := by
  refine ⟨?_, ?_, ?_, ?_⟩ <;> norm_num [estimate_other_costs]

/-- C10: for every input, the itinerary prompt built by
`generate_itinerary` ends with the closing budget directive
`STRICT RULE: Total cost MUST NOT exceed £<budget>. Prioritize free/cheap
options first.`, appended unconditionally. -/
theorem itinerary_prompt_ends_with_budget_directive (destination : String)
    (no_of_adults no_of_children : ℕ) (start_date end_date : String) (budget : ℕ)
    (interests : List String)
    (attractions_text weather_forecast accommodation_text : String) :
    ∃ p, generate_itinerary_prompt destination no_of_adults no_of_children start_date
        end_date budget interests attractions_text weather_forecast accommodation_text
      = p ++ strict_rule_directive budget :=
  ⟨_, rfl⟩
